import Mathlib

/-!
Verification of the mentoraja-backend conversation controller, payment
creation and payment webhook against its natural-language specification.

The repository contains two successive versions of the FastAPI backend:
`main.py` (V36) and `main3.py` (V10).  Both are embedded below, V36 under
the namespace `V36` and V10 under the namespace `V10`.  Database tables
are modelled as Lean lists of rows in chronological (insertion) order;
timestamps are modelled as integers (seconds); the Groq completion call
is modelled as an `Option String` parameter (`none` models a raised
exception); Python f-strings are modelled as explicit concatenations of
their literal segments and interpolated values.
-/

set_option maxRecDepth 40000

namespace Mentoraja

/-- Boolean test that the pattern is a leading segment of the character list. -/
def leadsWith : List Char → List Char → Bool
  | [], _ => true
  | _ :: _, [] => false
  | p :: ps, c :: cs => p == c && leadsWith ps cs

/-- Boolean test that the pattern occurs contiguously somewhere in the list. -/
def occursIn (pat : List Char) : List Char → Bool
  | [] => leadsWith pat []
  | c :: cs => leadsWith pat (c :: cs) || occursIn pat cs

/-- String containment: `pat` occurs contiguously in `s`. -/
def containsStr (s pat : String) : Bool := occursIn pat.data s.data

/-- Model of the Python string slice `s[:n]` (first `n` characters). -/
def pyStrTake (s : String) (n : Nat) : String := ⟨s.data.take n⟩

/-- One row of the `chat_history` table as fetched by the chat handlers
(`select("sender, message")`). -/
structure ChatMsg where
  sender : String
  message : String
deriving DecidableEq, Repr

/-- One full row of the `chat_history` table.  `created_at` ordering is
modelled by the position of the row in the table list. -/
structure ChatHistRow where
  user_id : String
  mentor_id : Int
  sender : String
  message : String
deriving DecidableEq, Repr

/-- One row of the `subscriptions` table.  Monetary fields are integers as
inserted by `main.py`; `created_at`, `start_date` and `expires_at` are
timestamps in seconds.  Rows created by payment creation have no
`start_date`/`expires_at` yet (`none` models SQL NULL; the Supabase
filter `gt("expires_at", now)` rejects NULL). -/
structure SubRow where
  user_id : String
  mentor_id : Int
  midtrans_order_id : String
  amount : Int
  net_amount : Int
  platform_fee_amount : Int
  status : String
  created_at : Int
  start_date : Option Int := none
  expires_at : Option Int := none
deriving DecidableEq, Repr

/-- The persistent state visible to the chat handlers. -/
structure Db where
  subscriptions : List SubRow
  chat_history : List ChatHistRow
deriving DecidableEq, Repr

/-- A mentor row as used by the prompt builders.  The source reads the
fields with `mentor['name']`, `mentor.get('expertise', ...)` and
`mentor.get('personality', ...)`; the `.get` defaults are resolved at
fetch time, so the builders receive plain strings. -/
structure Mentor where
  name : String
  expertise : String
  personality : String
deriving DecidableEq, Repr

namespace V36

/-- The OPENING instruction literal of `analyze_chat_phase` in `main.py`. -/
def openingInstruction : String := "\n            STATUS: FASE OPENING (Awal Sesi).\n            TUGAS UTAMA: Kamu WAJIB mendapatkan jawaban untuk 2 pertanyaan ini sebelum lanjut:\n            1. \"1 masalah spesifik apa yang mau kamu bahas?\"\n            2. \"Goal kamu apa / kamu berharap hasilnya apa?\"\n            \n            JANGAN MENGAJAR APAPUN DULU. Fokus hanya pada mendapatkan 2 jawaban ini.\n            Jika user baru menjawab satu, minta yang satunya lagi.\n            "

/-- Literal segment of the MENTORING instruction f-string before
`context_summary`. -/
def mentoringPre : String := "\n            STATUS: FASE MENTORING (Step-by-Step Teaching).\n            CONTEXT: "

/-- Literal segment of the MENTORING instruction f-string after
`context_summary`. -/
def mentoringPost : String := "\n            \n            ATURAN FATAL (JANGAN DILANGGAR):\n            1. **DILARANG BERTANYA LAGI** \"Apa masalahmu?\" atau \"Apa goalmu?\". User SUDAH menjawabnya. Anggap kamu sudah tahu.\n            2. Mulailah mengajar langkah demi langkah (Step 1, lalu Step 2, dst) sesuai KNOWLEDGE BASE.\n            3. **JANGAN SKIP LANGKAH.** Ajarkan SATU langkah, lalu minta data/konfirmasi user, baru lanjut ke langkah berikutnya.\n            4. Jika user bertanya hal di luar langkah saat ini, TOLAK dengan sopan: \"Sabar ya, pertanyaan kamu itu penting dan akan kita bahas nanti. Tapi biar hasilnya akurat, kita bahas satu per satu dulu.\" (Sesuai Logic Poin 5).\n            5. Di setiap langkah, minta DATA dari user. Jika user tidak punya data, tawarkan bantuan hitung (Sesuai Logic Poin 3).\n            "

/-- The result dictionary of `analyze_chat_phase`. -/
structure ChatState where
  phase : String
  instruction : String
deriving DecidableEq, Repr

/-- Embedding of `analyze_chat_phase` (`main.py`).  It counts the
user-authored messages of the fetched history window and returns the
OPENING instruction when fewer than 2 exist, and the MENTORING
instruction (with the first two user messages summarised) otherwise. -/
def analyze_chat_phase (history : List ChatMsg) : ChatState :=
  let user_messages := (history.filter fun m => m.sender == "user").map (fun m => m.message)
  let _ai_messages := (history.filter fun m => m.sender == "ai").map (fun m => m.message)
  if user_messages.length < 2 then
    { phase := "OPENING", instruction := openingInstruction }
  else
    let problem := match user_messages with
      | [] => "Unknown"
      | p :: _ => p
    let goal := match user_messages with
      | _ :: g :: _ => g
      | _ => "Unknown"
    let context_summary := "User Problem: " ++ problem ++ ". User Goal: " ++ goal ++ "."
    { phase := "MENTORING", instruction := mentoringPre ++ context_summary ++ mentoringPost }

/-- Embedding of the `user_name_instruction` conditional f-string of the
`/chat` handler in `main.py` (the Python condition is string truthiness,
i.e. non-emptiness). -/
def user_name_instruction (user_first_name : String) : String :=
  if user_first_name ≠ "" then
    "Panggil user dengan nama \x27" ++ user_first_name ++ "\x27."
  else
    "Panggil user dengan sopan."

/-- Literal segments of the `system_prompt` f-string of `main.py`. -/
def sysA : String := "\n    ANDA ADALAH "

/-- Segment between the mentor name and expertise interpolations. -/
def sysB : String := ", AHLI DI BIDANG "

/-- Segment between the expertise and personality interpolations. -/
def sysC : String := ".\n    KARAKTER: "

/-- Segment between the personality and knowledge-base interpolations. -/
def sysD : String := ".\n    BAHASA: Indonesia (Natural & Conversational).\n\n    [MATERI MENTORING / KNOWLEDGE BASE]\n    "

/-- Segment between the knowledge-base and phase-instruction interpolations. -/
def sysE : String := " \n    \n    =========================\x3d========================\n    [INSTRUKSI KHUSUS BERDASARKAN STATUS CHAT SAAT INI]\n    "

/-- Segment between the phase-instruction and user-name interpolations. -/
def sysF : String := "\n    \n    =========================\x3d========================\n    [ATURAN UMUM]\n    1. Jawablah dengan singkat, padat, dan \"punchy\". Jangan bertele-tele.\n    2. Fokus SATU langkah per satu waktu. Jangan menumpuk informasi.\n    3. Jika masuk tahap meminta data, gunakan format tanya yang jelas.\n    \n    "

/-- Closing segment of the `system_prompt` f-string. -/
def sysG : String := "\n    "

/-- Embedding of the composed instruction block (`system_prompt`) of the
`/chat` handler in `main.py`: persona header, truncated knowledge base
(`knowledge_base[:20000]`), the phase instruction from
`analyze_chat_phase`, the universal rules and the user-name
instruction. -/
def system_prompt (mentor : Mentor) (knowledge_base : String) (instruction : String)
    (user_first_name : String) : String :=
  sysA ++ mentor.name ++ sysB ++ mentor.expertise ++ sysC ++ mentor.personality ++ sysD ++
    pyStrTake knowledge_base 20000 ++ sysE ++ instruction ++ sysF ++
    user_name_instruction user_first_name ++ sysG

end V36

namespace V10

/-- The body of the `/chat` request in `main3.py`. -/
structure ChatRequest where
  user_id : String
  mentor_id : Int
  message : String
  business_type : String := "Umum"
deriving DecidableEq, Repr

/-- The JSON body returned by the `/chat` handler in `main3.py`: either
the quota sentinel `{reply, mentor, usage}` or the normal
`{mentor, reply}` (modelled with `usage = none`). -/
structure ChatResponse where
  mentor : String
  reply : String
  usage : Option Nat := none
deriving DecidableEq, Repr

/-- The observable outcome of one `/chat` turn: the updated tables, the
response body, and whether the Groq completion call was reached. -/
structure TurnOutcome where
  db : Db
  response : ChatResponse
  invokedCompletion : Bool
deriving DecidableEq, Repr

/-- Embedding of the subscription gate of `main3.py` (`sub_check`): a row
for the pair with `status = "settlement"` and
`created_at >= now - timedelta(days=30)` (times in seconds). -/
def is_subscribed_check (db : Db) (req : ChatRequest) (now : Int) : Bool :=
  db.subscriptions.any fun s =>
    s.user_id == req.user_id && s.mentor_id == req.mentor_id &&
      s.status == "settlement" && decide (now - 30 * 86400 ≤ s.created_at)

/-- Embedding of the quota count of `main3.py` (`history_count`): stored
`chat_history` rows for the pair with `sender = "user"`. -/
def user_chat_count_of (db : Db) (req : ChatRequest) : Nat :=
  (db.chat_history.filter fun m =>
    m.user_id == req.user_id && m.mentor_id == req.mentor_id && m.sender == "user").length

/-- The most recent `n` elements of a chronologically ordered list: models
`order("created_at", desc=True).limit(n)` followed by `reverse()`. -/
def takeLast (n : Nat) (l : List α) : List α := l.drop (l.length - n)

/-- Embedding of the `past_chats` fetch of `main3.py`: the last 10 rows
for the pair, in chronological order. -/
def past_chats_of (hist : List ChatHistRow) (req : ChatRequest) : List ChatHistRow :=
  takeLast 10 (hist.filter fun m => m.user_id == req.user_id && m.mentor_id == req.mentor_id)

/-- Embedding of the `messages_payload` loop of `main3.py`: role-tag every
fetched row and keep it unless its text equals the current message. -/
def messages_payload (past : List ChatHistRow) (message : String) : List (String × String) :=
  past.filterMap fun chat =>
    let role := if chat.sender == "user" then "user" else "assistant"
    if chat.message != message then some (role, chat.message) else none

/-- Embedding of `has_numbers = bool(re.search(r"\d+", request.message))`:
the message contains at least one decimal digit. -/
def has_numbers (message : String) : Bool := message.data.any Char.isDigit

/-- The MATH MODE instruction literal of `main3.py`. -/
def mathText : String := "\n        [MATH MODE ACTIVE]\n        - User provided specific numbers (e.g. price, capital).\n        - YOU MUST CALCULATE the strategy using formulas from the KNOWLEDGE BASE.\n        - Output the calculation steps and final result clearly.\n        "

/-- Embedding of the `math_instruction` conditional of `main3.py`. -/
def math_instruction (message : String) : String :=
  if has_numbers message then mathText else ""

/-- Literal segments of the `system_prompt` f-string of `main3.py`. -/
def sysH0 : String := "\n    ROLE: You are "

/-- Segment between the mentor-name and knowledge-base interpolations. -/
def sysH1 : String := ", a business practitioner/mentor.\n    KNOWLEDGE BASE (KB):\n    "

/-- Segment between the knowledge-base and business-type interpolations. -/
def sysH2 : String := "\n    \n    USER CONTEXT: "

/-- Segment between the business-type and math-instruction interpolations. -/
def sysH3 : String := "\n    \n    "

/-- Closing segment of the `system_prompt` f-string of `main3.py` (the
verbatim-copy rules, the three-phase flow and the general rules). -/
def sysH4 : String := "\n    \n    rules to FOLLOW STRICTLY:\n    \n    1. **ABSOLUTE VERBATIM COPY (CRITICAL):**\n       - If user asks for \"Roadmap\", \"Steps\", or \"Ways\", you MUST COPY the text from the KNOWLEDGE BASE word-for-word.\n       - **DO NOT SUMMARIZE.** Even if the text is long (e.g. 14 Days, 10 Slides), WRITE IT ALL OUT.\n       - **DO NOT SKIP DETAILS.** (e.g. Never write \"Slide 1, 2, and so on\". You MUST write Slide 1, Slide 2, Slide 3... until the end).\n       - **DO NOT CHANGE THE LANGUAGE STYLE.** If the text is formal, keep it formal. If informal, keep it informal.\n       - **DO NOT ADD LABELS** like \"PART 1\" or \"Here is the answer\". Just give the content.\n       - **DO NOT ADD HALLUCINATIONS.** Do not add \"Target: 1 hari\" if it is not written in the PDF.\n    \n    2. **MATH AGENT (IF NUMBERS PROVIDED):**\n       - If \x27MATH MODE\x27 is active, perform the calculation *after* providing the theory.\n       - Show the calculation clearly.\n    \n    --------------------------------------------------------\n    YOUR MAIN GOAL: Guide the user sequentially through the Knowledge Base.\n    DO NOT ANSWER RANDOMLY. FOLLOW THIS EXACT FLOW:\n    --------------------------------------------------------\n    \n    PHASE 1: AUTO-INTRODUCTION (If this is the START/FIRST Message)\n    - If user says \"Halo\", \"Siapa ini\", or starts the chat:\n    - **OUTPUT:** Introduce yourself using the \x27Latar Belakang\x27 from KB (Page 1). Mention your experience, F&B, Cateringaja, MentorAja, etc VERBATIM.\n    - **MANDATORY CLOSING:** \"Apa yang ingin anda konsultasikan hari ini atau ingin saya arahkan langkah langkah membangun bisnis sesuai kondisi anda?\"\n    \n    PHASE 2: DATA GATHERING (Triggered if user says \"Boleh\", \"Arahkan\", \"Iya\")\n    - If user agrees to guidance BUT hasn\x27t given business details yet:\n    - **OUTPUT:** \"Oke, saya bantu arahkan langkah langkah. Sebelum dimulai, saya perlu sedikit gambaran tentang bisnis anda, bisa tolong jelaskan detail informasi bisnis anda sekarang (Nama, Produk, Target)?\"\n    \n    PHASE 3: SEQUENTIAL TEACHING (Triggered after user gives Business Details)\n    - **STEP 1 (First Topic):** Explain \x27Definisi bisnis bagus untuk pemula\x27 (5 Kriteria) from KB.\n      - **Content:** COPY EXACTLY from KB.\n      - **Context:** Relate it briefly to the user\x27s business.\n      - **CLOSING:** \"Nah, itu definisinya. Selanjutnya, mau kita bahas tentang Prinsip/heuristik (minimal 3) paling sering dipakai saat bingung ambil keputusan?\"\n      \n    - **STEP 2 (Second Topic):** If user agreed to Step 1 Closing -> Explain \x27Prinsip/Heuristik\x27.\n      - **Content:** COPY EXACTLY from KB.\n      - **CLOSING:** \"Selanjutnya, mau kita bahas tentang Aturan Risiko (Gas vs Rem)?\"\n      \n    - **STEP 3 ... and so on:** Continue following the PDF structure point by point.\n    \n    --------------------------------------------------------\n    GENERAL RULES:\n    1. **VERBATIM CONTENT:** When explaining a list/definition, COPY the text from KB word-for-word. Do not summarize.\n    2. **CONVERSATIONAL TONE:** Use natural Indonesian for opening/closing, but keep the educational content strict.\n    3. **ONE THING AT A TIME:** Do not merge multiple topics (e.g. don\x27t answer Definition AND Principles in one chat).\n    4. **MATH:** If user asks for calculation help, do the math based on KB formulas.\n    "

/-- Embedding of the composed instruction block (`system_prompt`) of the
`/chat` handler in `main3.py`. -/
def system_prompt (mentorName knowledge_base business_type mathInstr : String) : String :=
  sysH0 ++ mentorName ++ sysH1 ++ knowledge_base ++ sysH2 ++ business_type ++ sysH3 ++
    mathInstr ++ sysH4

/-- The fixed fail-soft reply of `main3.py` used when the Groq call
raises. -/
def failSoftReply : String := "Maaf, sistem sedang sibuk. Mohon coba lagi."

/-- Embedding of the `/chat` handler of `main3.py` (`chat_with_mentor`).
The mentor row and the joined knowledge base are passed as values (they
are read-only fetches); `completionResult = none` models an exception
raised by the Groq completion call, `some text` a successful reply. -/
def chat_with_mentor (db : Db) (req : ChatRequest) (now : Int) (mentor : Mentor)
    (knowledge_base : String) (completionResult : Option String) : TurnOutcome :=
  let is_subscribed := is_subscribed_check db req now
  let user_chat_count := user_chat_count_of db req
  if is_subscribed = false ∧ 5 ≤ user_chat_count then
    { db := db,
      response := { mentor := "System", reply := "LIMIT_REACHED", usage := some user_chat_count },
      invokedCompletion := false }
  else
    let db1 : Db := { db with chat_history := db.chat_history ++
      [{ user_id := req.user_id, mentor_id := req.mentor_id, sender := "user",
         message := req.message }] }
    let past_chats := past_chats_of db1.chat_history req
    let _is_start := decide (past_chats.length ≤ 1)
    let payload := messages_payload past_chats req.message
    let sys := system_prompt mentor.name knowledge_base req.business_type
      (math_instruction req.message)
    let _final_messages := ([("system", sys)] ++ payload) ++ [("user", req.message)]
    let ai_reply := match completionResult with
      | some text => text
      | none => failSoftReply
    let db2 : Db := { db1 with chat_history := db1.chat_history ++
      [{ user_id := req.user_id, mentor_id := req.mentor_id, sender := "ai",
         message := ai_reply }] }
    { db := db2,
      response := { mentor := mentor.name, reply := ai_reply, usage := none },
      invokedCompletion := true }

/-- The dead-code phase signal `is_start` of `main3.py`, as the handler
computes it for a given prior state and request: insert the inbound user
row, fetch the last 10 rows for the pair, and test whether at most one
row exists. -/
def is_start_of (db : Db) (req : ChatRequest) : Bool :=
  decide ((past_chats_of (db.chat_history ++
    [{ user_id := req.user_id, mentor_id := req.mentor_id, sender := "user",
       message := req.message }]) req).length ≤ 1)

end V10

/-- The entitlement predicate in the words of the spec (for the refinement
claim C3): at least one subscription row for the pair has
`status = settlement` and an expiry time strictly after the current
time. -/
def entitledSpec (subs : List SubRow) (user_id : String) (mentor_id : Int) (now : Int) : Prop :=
  ∃ s ∈ subs, s.user_id = user_id ∧ s.mentor_id = mentor_id ∧ s.status = "settlement" ∧
    ∃ e, s.expires_at = some e ∧ now < e

namespace Binary64

/-- Bit length of a natural number, by fuel-bounded halving; exact for
every argument below `2 ^ 4200`, which covers all IEEE-754 binary64
magnitudes handled here. -/
def bitsFuel : Nat → Nat → Nat
  | 0, _ => 0
  | f + 1, n => if n = 0 then 0 else bitsFuel f (n / 2) + 1

/-- Bit length of a natural number. -/
def natBits (n : Nat) : Nat := bitsFuel 4200 n

/-- A binary64 value represented exactly as `m * 2 ^ e` (no overflow or
subnormal handling: the magnitudes reached by the embedded code stay far
inside the normal range). -/
structure FP where
  m : Int
  e : Int
deriving DecidableEq, Repr

/-- Round `m * 2 ^ e` to 53 significant bits with round-to-nearest,
ties-to-even — the IEEE-754 binary64 rounding used by CPython floats. -/
def fpRound53 (m : Int) (e : Int) : FP :=
  if m = 0 then ⟨0, 0⟩ else
  let n := m.natAbs
  let L := natBits n
  if L ≤ 53 then ⟨m, e⟩ else
  let s := L - 53
  let q := n / 2 ^ s
  let r := n % 2 ^ s
  let half := 2 ^ (s - 1)
  let q2 := if r < half then q else if half < r then q + 1 else if q % 2 = 0 then q else q + 1
  ⟨if m < 0 then -(q2 : Int) else (q2 : Int), e + (s : Int)⟩

/-- CPython conversion of an arbitrary-precision integer to a float. -/
def floatOfInt (n : Int) : FP := fpRound53 n 0

/-- IEEE-754 binary64 multiplication: round the exact product. -/
def fpMul (a b : FP) : FP := fpRound53 (a.m * b.m) (a.e + b.e)

/-- The binary64 value of the literal `0.1`: `1/10` lies in
`[2 ^ (-4), 2 ^ (-3))`, so its 53-bit significand is `2 ^ 56 / 10`
rounded to nearest, ties to even. -/
def float01 : FP :=
  let q := 2 ^ 56 / 10
  let r := 2 ^ 56 % 10
  let m := if 2 * r < 10 then q else if 10 < 2 * r then q + 1 else if q % 2 = 0 then q else q + 1
  ⟨m, -56⟩

/-- CPython `int()` applied to a float: truncation toward zero. -/
def fpTruncToInt (a : FP) : Int :=
  if 0 ≤ a.e then a.m * 2 ^ a.e.toNat else Int.tdiv a.m (2 ^ (-a.e).toNat)

/-- Model of the Python expression `int(g * 0.1)` for an integer `g`:
convert `g` to binary64, multiply by the binary64 value of `0.1`, and
truncate toward zero. -/
def pyTruncTimesTenth (g : Int) : Int := fpTruncToInt (fpMul (floatOfInt g) float01)

end Binary64

/-- Digit run with optional single underscores between digits, as CPython
`int()` accepts after the first digit. -/
def digitRun : List Char → Bool
  | [] => true
  | '_' :: c :: cs => c.isDigit && digitRun cs
  | ['_'] => false
  | c :: cs => c.isDigit && digitRun cs

/-- Decimal value of a digit list (underscores removed by the caller). -/
def natOfDigits (l : List Char) : Nat := l.foldl (fun a c => 10 * a + (c.toNat - 48)) 0

/-- Unsigned part of CPython `int()` on a string: a nonempty digit run
with optional single underscores between digits. -/
def pyIntCore (l : List Char) : Option Nat :=
  match l with
  | [] => none
  | c :: cs =>
    if c.isDigit && digitRun cs then
      some (natOfDigits ((c :: cs).filter fun ch => ch != '_'))
    else none

/-- Model of CPython `int(s)` in base 10: strip surrounding whitespace,
accept an optional sign followed by digits (with single underscores
between digits), and return `none` where CPython raises `ValueError`. -/
def pyIntOfStr (s : String) : Option Int :=
  let t := ((s.data.dropWhile Char.isWhitespace).reverse.dropWhile Char.isWhitespace).reverse
  match t with
  | '-' :: rest => (pyIntCore rest).map fun n => -(n : Int)
  | '+' :: rest => (pyIntCore rest).map fun n => (n : Int)
  | l => (pyIntCore l).map fun n => (n : Int)

/-- Model of Python `str.split("-")`: split on every hyphen, keeping empty
segments. -/
def splitDash : List Char → List (List Char)
  | [] => [[]]
  | c :: cs =>
    if c = '-' then [] :: splitDash cs
    else
      match splitDash cs with
      | [] => [[c]]
      | seg :: rest => (c :: seg) :: rest

/-- The final hyphen-separated segment of a string
(`order_id.split("-")[-1]`; `split` always returns a nonempty list). -/
def lastSegment (s : String) : String := ⟨(splitDash s.data).getLastD []⟩

/-- Decimal digits of a natural number (fuel-bounded, exact below
`10 ^ 200`). -/
def natDecAux : Nat → Nat → List Char
  | 0, _ => []
  | f + 1, n => if n < 10 then [Char.ofNat (48 + n)] else natDecAux f (n / 10) ++ [Char.ofNat (48 + n % 10)]

/-- Decimal string of a natural number. -/
def natDecString (n : Nat) : String := ⟨natDecAux 200 n⟩

/-- Model of Python `str()` on an integer. -/
def intDecString (i : Int) : String :=
  if i < 0 then "-" ++ natDecString i.natAbs else natDecString i.natAbs

namespace V36

/-- Embedding of the `duration_hours` recovery in `midtrans_notification`
(`main.py`): `int(order_id.split("-")[-1])`, with 1 substituted when
`int()` raises. -/
def duration_hours_of (order_id : String) : Int :=
  match pyIntOfStr (lastSegment order_id) with
  | some n => n
  | none => 1

/-- Embedding of the `/midtrans-notification` handler of `main.py`: on
`capture`/`settlement` set every row matching the order id to
`settlement` with `start_date = now` and
`expires_at = now + timedelta(hours=duration_hours)`; on
`deny`/`cancel`/`expire` set matching rows to `failed`; otherwise leave
the table unchanged. -/
def midtrans_notification (db : List SubRow) (order_id : String)
    (transaction_status : String) (now : Int) : List SubRow :=
  if transaction_status == "capture" || transaction_status == "settlement" then
    let duration_hours := duration_hours_of order_id
    let expiry_time := now + 3600 * duration_hours
    db.map fun r =>
      if r.midtrans_order_id == order_id then
        { r with status := "settlement", start_date := some now, expires_at := some expiry_time }
      else r
  else if transaction_status == "deny" || transaction_status == "cancel" ||
      transaction_status == "expire" then
    db.map fun r => if r.midtrans_order_id == order_id then { r with status := "failed" } else r
  else db

/-- Embedding of the order id built by `create_payment` (`main.py`):
`f"SUB-{req.user_id[:4]}-{stamp}-{req.duration_hours}"` where `stamp` is
the `%d%H%M%S` timestamp string. -/
def order_id_of (user_id : String) (stamp : String) (duration_hours : Int) : String :=
  "SUB-" ++ pyStrTake user_id 4 ++ "-" ++ stamp ++ "-" ++ intDecString duration_hours

/-- Embedding of the subscription row inserted by `create_payment`
(`main.py`): `price_per_hour` is the mentor row's `price_per_month`
field, `gross_amount = price_per_hour * duration_hours`,
`fee = int(gross_amount * 0.1)` computed in binary64,
`net_amount = gross_amount - fee`, status `pending`.  `created_at` is
the insertion time filled by the store. -/
def create_payment (price_per_month : Int) (req_user_id : String) (req_mentor_id : Int)
    (req_duration_hours : Int) (stamp : String) (now : Int) : SubRow :=
  let price_per_hour := price_per_month
  let gross_amount := price_per_hour * req_duration_hours
  let fee := Binary64.pyTruncTimesTenth gross_amount
  let net_amount := gross_amount - fee
  let order_id := order_id_of req_user_id stamp req_duration_hours
  { user_id := req_user_id, mentor_id := req_mentor_id, midtrans_order_id := order_id,
    amount := gross_amount, net_amount := net_amount, platform_fee_amount := fee,
    status := "pending", created_at := now }

/-- The fallback mentor of the `/chat` handler in `main.py` (used when the
mentor row is missing), with the `.get` default for `personality`. -/
def defaultMentor : Mentor :=
  { name := "Mentor", expertise := "General",
    personality := "Profesional, Tegas namun Membantu" }

end V36

/-- Opening-phase directive marker: the mandatory problem question. -/
def openingDirectiveA : String := "1 masalah spesifik apa yang mau kamu bahas?"

/-- Opening-phase directive marker: the mandatory goal question. -/
def openingDirectiveB : String := "Goal kamu apa / kamu berharap hasilnya apa?"

/-- Opening-phase directive marker: the no-teaching rule. -/
def openingDirectiveC : String := "JANGAN MENGAJAR APAPUN DULU"

/-- Teaching/Mentoring-phase directive marker. -/
def teachingDirective : String := "STATUS: FASE MENTORING"

/-- Math-mode directive marker of `main3.py`. -/
def mathDirective : String := "[MATH MODE ACTIVE]"

/-! Containment lemmas for the composed instruction blocks. -/

theorem leadsWith_extend {p s u : List Char} (h : leadsWith p s = true) :
    leadsWith p (s ++ u) = true := by
  induction p generalizing s with
  | nil => simp [leadsWith]
  | cons a ps ih =>
    cases s with
    | nil => simp [leadsWith] at h
    | cons c cs =>
      simp only [leadsWith, Bool.and_eq_true] at h
      simp only [List.cons_append, leadsWith, Bool.and_eq_true]
      exact ⟨h.1, ih h.2⟩

theorem occursIn_nil_pat (l : List Char) : occursIn [] l = true := by
  cases l <;> simp [occursIn, leadsWith]

theorem occursIn_extend {p : List Char} {t u : List Char} (h : occursIn p t = true) :
    occursIn p (t ++ u) = true := by
  induction t with
  | nil =>
    cases p with
    | nil => simpa using occursIn_nil_pat u
    | cons a ps => simp [occursIn, leadsWith] at h
  | cons c cs ih =>
    simp only [occursIn, Bool.or_eq_true] at h
    simp only [List.cons_append, occursIn, Bool.or_eq_true]
    rcases h with h | h
    · exact Or.inl (leadsWith_extend h)
    · exact Or.inr (ih h)

theorem occursIn_shift {p : List Char} {s t : List Char} (h : occursIn p t = true) :
    occursIn p (s ++ t) = true := by
  induction s with
  | nil => simpa using h
  | cons c cs ih =>
    simp only [List.cons_append, occursIn, Bool.or_eq_true]
    exact Or.inr ih

/-- Containment survives appending on the right. -/
theorem containsStr_left {s t pat : String} (h : containsStr s pat = true) :
    containsStr (s ++ t) pat = true := by
  simp only [containsStr, String.data_append]
  exact occursIn_extend h

/-- Containment survives prepending on the left. -/
theorem containsStr_right {s t pat : String} (h : containsStr t pat = true) :
    containsStr (s ++ t) pat = true := by
  simp only [containsStr, String.data_append]
  exact occursIn_shift h

/-! C1: the opening gate of `main.py`. -/

theorem analyze_chat_phase_opening {history : List ChatMsg}
    (h : (history.filter fun m => m.sender == "user").length < 2) :
    V36.analyze_chat_phase history =
      { phase := "OPENING", instruction := V36.openingInstruction } := by
  simp only [V36.analyze_chat_phase, List.length_map]
  rw [if_pos h]

theorem analyze_chat_phase_mentoring {history : List ChatMsg}
    (h : 2 ≤ (history.filter fun m => m.sender == "user").length) :
    (V36.analyze_chat_phase history).phase = "MENTORING" := by
  simp only [V36.analyze_chat_phase, List.length_map]
  rw [if_neg (by omega)]

/-- Claim C1: for every history with fewer than 2 user-authored messages the
phase classifier of `main.py` returns the OPENING phase, its instruction
is the fixed Opening text (independent of message content), the composed
instruction block contains the Opening-phase directives (the two
mandatory elicitation questions and the no-teaching rule) for every
mentor, knowledge base and user name, and neither the Opening
instruction nor the block composed with the default mentor and empty
knowledge base contains the Teaching/Mentoring-phase directive; with 2
or more user messages the classifier returns the MENTORING phase. -/
theorem C1_opening_gate (history : List ChatMsg) (mentor : Mentor) (kb uname : String) :
    ((V36.analyze_chat_phase history).phase =
      if (history.filter fun m => m.sender == "user").length < 2 then "OPENING"
      else "MENTORING")
    ∧ ((history.filter fun m => m.sender == "user").length < 2 →
        (V36.analyze_chat_phase history).instruction = V36.openingInstruction
        ∧ containsStr (V36.system_prompt mentor kb
            (V36.analyze_chat_phase history).instruction uname) openingDirectiveA = true
        ∧ containsStr (V36.system_prompt mentor kb
            (V36.analyze_chat_phase history).instruction uname) openingDirectiveB = true
        ∧ containsStr (V36.system_prompt mentor kb
            (V36.analyze_chat_phase history).instruction uname) openingDirectiveC = true
        ∧ containsStr (V36.analyze_chat_phase history).instruction teachingDirective = false
        ∧ containsStr (V36.system_prompt V36.defaultMentor ""
            (V36.analyze_chat_phase history).instruction "") teachingDirective = false) := by
  constructor
  · by_cases h : (history.filter fun m => m.sender == "user").length < 2
    · rw [if_pos h, analyze_chat_phase_opening h]
    · rw [if_neg h]
      exact analyze_chat_phase_mentoring (by omega)
  · intro h
    rw [analyze_chat_phase_opening h]
    refine ⟨rfl, ?_, ?_, ?_, by rfl, ?_⟩
    · apply containsStr_left
      apply containsStr_left
      apply containsStr_left
      apply containsStr_right
      rfl
    · apply containsStr_left
      apply containsStr_left
      apply containsStr_left
      apply containsStr_right
      rfl
    · apply containsStr_left
      apply containsStr_left
      apply containsStr_left
      apply containsStr_right
      rfl
    · rfl

/-- Claim C1 witness: the empty history has fewer than 2 user messages and
yields the OPENING phase and an Opening-directive block. -/
theorem C1_opening_gate_witness :
    ((([] : List ChatMsg).filter fun m => m.sender == "user").length < 2)
    ∧ ((V36.analyze_chat_phase []).instruction = V36.openingInstruction
      ∧ containsStr (V36.system_prompt ⟨"Budi", "F&B", "Tegas"⟩ "KB contoh"
          (V36.analyze_chat_phase []).instruction "Andi") openingDirectiveA = true
      ∧ containsStr (V36.system_prompt ⟨"Budi", "F&B", "Tegas"⟩ "KB contoh"
          (V36.analyze_chat_phase []).instruction "Andi") openingDirectiveB = true
      ∧ containsStr (V36.system_prompt ⟨"Budi", "F&B", "Tegas"⟩ "KB contoh"
          (V36.analyze_chat_phase []).instruction "Andi") openingDirectiveC = true
      ∧ containsStr (V36.analyze_chat_phase []).instruction teachingDirective = false
      ∧ containsStr (V36.system_prompt V36.defaultMentor ""
          (V36.analyze_chat_phase []).instruction "") teachingDirective = false) :=
  ⟨by decide, (C1_opening_gate [] ⟨"Budi", "F&B", "Tegas"⟩ "KB contoh" "Andi").2 (by decide)⟩

/-! C2: the free-quota sentinel of `main3.py`. -/

theorem is_subscribed_check_eq_false (db : Db) (req : V10.ChatRequest) (now : Int)
    (hsub : ∀ s ∈ db.subscriptions,
      ¬(s.user_id = req.user_id ∧ s.mentor_id = req.mentor_id ∧ s.status = "settlement")) :
    V10.is_subscribed_check db req now = false := by
  refine Bool.eq_false_iff.mpr ?_
  intro hb
  simp only [V10.is_subscribed_check, List.any_eq_true, Bool.and_eq_true, beq_iff_eq,
    decide_eq_true_eq] at hb
  obtain ⟨s, hmem, hcond⟩ := hb
  exact hsub s hmem ⟨hcond.1.1.1, hcond.1.1.2, hcond.1.2⟩

/-- Claim C2: for a user with no settlement-status subscription row for the
mentor, once at least `FREE_QUOTA = 5` user-sender rows are stored for
the pair, the `/chat` handler of `main3.py` returns the sentinel body
`{reply: "LIMIT_REACHED", mentor: "System", usage: count}` as a normal
(non-error) outcome, leaves the tables unchanged, and does not invoke
the completion service — independent of the message content. -/
theorem C2_quota_sentinel (db : Db) (req : V10.ChatRequest) (now : Int) (mentor : Mentor)
    (kb : String) (completionResult : Option String)
    (hsub : ∀ s ∈ db.subscriptions,
      ¬(s.user_id = req.user_id ∧ s.mentor_id = req.mentor_id ∧ s.status = "settlement"))
    (hcount : 5 ≤ V10.user_chat_count_of db req) :
    V10.chat_with_mentor db req now mentor kb completionResult =
      { db := db,
        response := { mentor := "System", reply := "LIMIT_REACHED",
                      usage := some (V10.user_chat_count_of db req) },
        invokedCompletion := false } := by
  have hs := is_subscribed_check_eq_false db req now hsub
  simp only [V10.chat_with_mentor]
  rw [if_pos ⟨hs, hcount⟩]

/-- Claim C2 witness: a user with five stored user messages and no
subscription rows receives the sentinel on the sixth call. -/
theorem C2_quota_sentinel_witness :
    (∀ s ∈ (Db.mk [] [⟨"u1", 1, "user", "m1"⟩, ⟨"u1", 1, "user", "m2"⟩,
        ⟨"u1", 1, "user", "m3"⟩, ⟨"u1", 1, "user", "m4"⟩,
        ⟨"u1", 1, "user", "m5"⟩]).subscriptions,
      ¬(s.user_id = "u1" ∧ s.mentor_id = 1 ∧ s.status = "settlement"))
    ∧ 5 ≤ V10.user_chat_count_of
        (Db.mk [] [⟨"u1", 1, "user", "m1"⟩, ⟨"u1", 1, "user", "m2"⟩,
          ⟨"u1", 1, "user", "m3"⟩, ⟨"u1", 1, "user", "m4"⟩,
          ⟨"u1", 1, "user", "m5"⟩]) ⟨"u1", 1, "apapun isinya", "Umum"⟩
    ∧ V10.chat_with_mentor
        (Db.mk [] [⟨"u1", 1, "user", "m1"⟩, ⟨"u1", 1, "user", "m2"⟩,
          ⟨"u1", 1, "user", "m3"⟩, ⟨"u1", 1, "user", "m4"⟩,
          ⟨"u1", 1, "user", "m5"⟩]) ⟨"u1", 1, "apapun isinya", "Umum"⟩ 7777
        ⟨"Budi", "F&B", "Tegas"⟩ "KB" (some "jawaban model") =
      { db := Db.mk [] [⟨"u1", 1, "user", "m1"⟩, ⟨"u1", 1, "user", "m2"⟩,
          ⟨"u1", 1, "user", "m3"⟩, ⟨"u1", 1, "user", "m4"⟩,
          ⟨"u1", 1, "user", "m5"⟩],
        response := { mentor := "System", reply := "LIMIT_REACHED",
                      usage := some (V10.user_chat_count_of
                        (Db.mk [] [⟨"u1", 1, "user", "m1"⟩, ⟨"u1", 1, "user", "m2"⟩,
                          ⟨"u1", 1, "user", "m3"⟩, ⟨"u1", 1, "user", "m4"⟩,
                          ⟨"u1", 1, "user", "m5"⟩]) ⟨"u1", 1, "apapun isinya", "Umum"⟩) },
        invokedCompletion := false } :=
  ⟨by decide, by decide,
    C2_quota_sentinel
      (Db.mk [] [⟨"u1", 1, "user", "m1"⟩, ⟨"u1", 1, "user", "m2"⟩,
        ⟨"u1", 1, "user", "m3"⟩, ⟨"u1", 1, "user", "m4"⟩,
        ⟨"u1", 1, "user", "m5"⟩]) ⟨"u1", 1, "apapun isinya", "Umum"⟩ 7777
      ⟨"Budi", "F&B", "Tegas"⟩ "KB" (some "jawaban model") (by decide) (by decide)⟩

/-! C3: entitlement condition versus the code of `main3.py`. -/

/-- Claim C3 counterexample: a subscription row with `status = settlement`
whose expiry lies strictly in the past (`expires_at = 999000 < now =
1000000`) but which was created within the last 30 days still bypasses
the quota in `main3.py` — the handler invokes the completion service
although the user has 5 stored user messages and the spec predicate
(settlement and future expiry) does not hold. -/
theorem C3_counterexample :
    (V10.chat_with_mentor
        (Db.mk [{ user_id := "u1", mentor_id := 1, midtrans_order_id := "ORD-1",
                  amount := 100, net_amount := 90, platform_fee_amount := 10,
                  status := "settlement", created_at := 1000000, start_date := some 900000,
                  expires_at := some 999000 }]
          [⟨"u1", 1, "user", "m1"⟩, ⟨"u1", 1, "user", "m2"⟩, ⟨"u1", 1, "user", "m3"⟩,
           ⟨"u1", 1, "user", "m4"⟩, ⟨"u1", 1, "user", "m5"⟩])
        ⟨"u1", 1, "halo", "Umum"⟩ 1000000 ⟨"Budi", "F&B", "Tegas"⟩ ""
        (some "jawaban model")).invokedCompletion = true
    ∧ 5 ≤ V10.user_chat_count_of
        (Db.mk [{ user_id := "u1", mentor_id := 1, midtrans_order_id := "ORD-1",
                  amount := 100, net_amount := 90, platform_fee_amount := 10,
                  status := "settlement", created_at := 1000000, start_date := some 900000,
                  expires_at := some 999000 }]
          [⟨"u1", 1, "user", "m1"⟩, ⟨"u1", 1, "user", "m2"⟩, ⟨"u1", 1, "user", "m3"⟩,
           ⟨"u1", 1, "user", "m4"⟩, ⟨"u1", 1, "user", "m5"⟩]) ⟨"u1", 1, "halo", "Umum"⟩
    ∧ ¬ entitledSpec
        [{ user_id := "u1", mentor_id := 1, midtrans_order_id := "ORD-1",
           amount := 100, net_amount := 90, platform_fee_amount := 10,
           status := "settlement", created_at := 1000000, start_date := some 900000,
           expires_at := some 999000 }] "u1" 1 1000000 := by
  refine ⟨rfl, by decide, ?_⟩
  intro h
  simp only [entitledSpec, List.mem_singleton] at h
  obtain ⟨s, hs, _, _, _, e, he, hlt⟩ := h
  subst hs
  simp only [Option.some.injEq] at he
  omega

/-- Claim C3 (amended): in `main3.py` a user bypasses the free-message
quota for a mentor iff at least one subscription row for the pair has
`status = settlement` and was created within the last 30 days
(`created_at >= now - 30 days`); the expiry time is not consulted.  When
such a row exists the quota check is skipped entirely, even if the
stored user-message count already exceeds the quota (the completion
service is reached regardless of the count). -/
theorem C3_amended (db : Db) (req : V10.ChatRequest) (now : Int) (mentor : Mentor)
    (kb : String) (completionResult : Option String) :
    ((V10.chat_with_mentor db req now mentor kb completionResult).invokedCompletion = true ↔
      (V10.is_subscribed_check db req now = true ∨ V10.user_chat_count_of db req < 5))
    ∧ (V10.is_subscribed_check db req now = true ↔
        ∃ s ∈ db.subscriptions, s.user_id = req.user_id ∧ s.mentor_id = req.mentor_id ∧
          s.status = "settlement" ∧ now - 30 * 86400 ≤ s.created_at) := by
  constructor
  · by_cases hc : V10.is_subscribed_check db req now = false ∧ 5 ≤ V10.user_chat_count_of db req
    · simp only [V10.chat_with_mentor]
      rw [if_pos hc]
      simp only [Bool.false_eq_true, false_iff, not_or]
      exact ⟨by simp [hc.1], by omega⟩
    · simp only [V10.chat_with_mentor]
      rw [if_neg hc]
      simp only [true_iff]
      rcases Decidable.not_and_iff_or_not.mp hc with h | h
      · exact Or.inl (by simpa using h)
      · exact Or.inr (by omega)
  · simp only [V10.is_subscribed_check, List.any_eq_true, Bool.and_eq_true, beq_iff_eq,
      decide_eq_true_eq]
    constructor
    · rintro ⟨s, hmem, ⟨⟨hu, hm⟩, hst⟩, hcr⟩
      exact ⟨s, hmem, hu, hm, hst, hcr⟩
    · rintro ⟨s, hmem, hu, hm, hst, hcr⟩
      exact ⟨s, hmem, ⟨⟨hu, hm⟩, hst⟩, hcr⟩

/-! C4: history exclusion drops earlier duplicates too. -/

/-- Claim C4 evaluation at the failing input: with a fetched history
`[user "halo", ai "jawaban", user "halo"]` and current message `"halo"`,
the payload loop of `main3.py` (and the identical loop of `main.py`)
drops the earlier, genuine `"halo"` entry as well as the just-inserted
copy, returning only the assistant entry — although the in-code comment
says only the just-inserted last user message is to be skipped. -/
theorem C4_history_exclusion_eval :
    V10.messages_payload
      [⟨"u1", 1, "user", "halo"⟩, ⟨"u1", 1, "ai", "jawaban"⟩, ⟨"u1", 1, "user", "halo"⟩]
      "halo" = [("assistant", "jawaban")] := by decide

/-! C5: fail-soft recovery of a completion failure in `main3.py`. -/

/-- Claim C5: on a turn that passes the entitlement gate and whose
completion call raises (modelled by `completionResult = none`), the
`/chat` handler of `main3.py` still appends exactly one new `ai` row
containing the fixed fallback apology text, returns the normal-shaped
response with that text as the reply, and leaves the subscriptions
untouched — no exception escapes to the caller. -/
theorem C5_fail_soft (db : Db) (req : V10.ChatRequest) (now : Int) (mentor : Mentor)
    (kb : String)
    (hgate : ¬(V10.is_subscribed_check db req now = false ∧
      5 ≤ V10.user_chat_count_of db req)) :
    (V10.chat_with_mentor db req now mentor kb none).db.chat_history =
      db.chat_history ++
        [⟨req.user_id, req.mentor_id, "user", req.message⟩,
         ⟨req.user_id, req.mentor_id, "ai", V10.failSoftReply⟩]
    ∧ (V10.chat_with_mentor db req now mentor kb none).db.subscriptions = db.subscriptions
    ∧ (V10.chat_with_mentor db req now mentor kb none).response =
        { mentor := mentor.name, reply := V10.failSoftReply, usage := none }
    ∧ ((V10.chat_with_mentor db req now mentor kb none).db.chat_history.filter
        fun m => m.sender == "ai").length =
      (db.chat_history.filter fun m => m.sender == "ai").length + 1 := by
  have key : V10.chat_with_mentor db req now mentor kb none =
      { db := { db with chat_history :=
          (db.chat_history ++ [⟨req.user_id, req.mentor_id, "user", req.message⟩]) ++
            [⟨req.user_id, req.mentor_id, "ai", V10.failSoftReply⟩] },
        response := { mentor := mentor.name, reply := V10.failSoftReply, usage := none },
        invokedCompletion := true } := by
    simp only [V10.chat_with_mentor]
    rw [if_neg hgate]
  rw [key]
  refine ⟨by simp, rfl, rfl, ?_⟩
  simp [List.filter_append]

/-- Claim C5 witness: a fresh user (empty tables) passes the gate; a failed
completion call still records the fallback reply. -/
theorem C5_fail_soft_witness :
    (¬(V10.is_subscribed_check (Db.mk [] []) ⟨"u9", 2, "tolong bantu", "Kuliner"⟩ 5 = false ∧
      5 ≤ V10.user_chat_count_of (Db.mk [] []) ⟨"u9", 2, "tolong bantu", "Kuliner"⟩))
    ∧ ((V10.chat_with_mentor (Db.mk [] []) ⟨"u9", 2, "tolong bantu", "Kuliner"⟩ 5
          ⟨"Sari", "Retail", "Ramah"⟩ "K" none).db.chat_history =
        (Db.mk [] []).chat_history ++
          [⟨"u9", 2, "user", "tolong bantu"⟩, ⟨"u9", 2, "ai", V10.failSoftReply⟩]
      ∧ (V10.chat_with_mentor (Db.mk [] []) ⟨"u9", 2, "tolong bantu", "Kuliner"⟩ 5
          ⟨"Sari", "Retail", "Ramah"⟩ "K" none).db.subscriptions = (Db.mk [] []).subscriptions
      ∧ (V10.chat_with_mentor (Db.mk [] []) ⟨"u9", 2, "tolong bantu", "Kuliner"⟩ 5
          ⟨"Sari", "Retail", "Ramah"⟩ "K" none).response =
          { mentor := "Sari", reply := V10.failSoftReply, usage := none }
      ∧ ((V10.chat_with_mentor (Db.mk [] []) ⟨"u9", 2, "tolong bantu", "Kuliner"⟩ 5
          ⟨"Sari", "Retail", "Ramah"⟩ "K" none).db.chat_history.filter
            fun m => m.sender == "ai").length =
        ((Db.mk [] []).chat_history.filter fun m => m.sender == "ai").length + 1) :=
  ⟨by decide,
    C5_fail_soft (Db.mk [] []) ⟨"u9", 2, "tolong bantu", "Kuliner"⟩ 5
      ⟨"Sari", "Retail", "Ramah"⟩ "K" (by decide)⟩

/-! C6: the denied call does not record the inbound message. -/

/-- Claim C6 counterexample: a call denied with the `LIMIT_REACHED`
sentinel (five stored user messages, no subscription) leaves
`chat_history` unchanged — the inbound user message is not recorded, so
the stored user-message count does not grow on that call. -/
theorem C6_counterexample :
    (V10.chat_with_mentor
        (Db.mk [] [⟨"u2", 3, "user", "a"⟩, ⟨"u2", 3, "user", "b"⟩, ⟨"u2", 3, "user", "c"⟩,
          ⟨"u2", 3, "user", "d"⟩, ⟨"u2", 3, "user", "e"⟩])
        ⟨"u2", 3, "pesan baru", "Umum"⟩ 0 ⟨"Tono", "HR", "Kalem"⟩ ""
        (some "balasan")).response.reply = "LIMIT_REACHED"
    ∧ (V10.chat_with_mentor
        (Db.mk [] [⟨"u2", 3, "user", "a"⟩, ⟨"u2", 3, "user", "b"⟩, ⟨"u2", 3, "user", "c"⟩,
          ⟨"u2", 3, "user", "d"⟩, ⟨"u2", 3, "user", "e"⟩])
        ⟨"u2", 3, "pesan baru", "Umum"⟩ 0 ⟨"Tono", "HR", "Kalem"⟩ ""
        (some "balasan")).db.chat_history =
      [⟨"u2", 3, "user", "a"⟩, ⟨"u2", 3, "user", "b"⟩, ⟨"u2", 3, "user", "c"⟩,
       ⟨"u2", 3, "user", "d"⟩, ⟨"u2", 3, "user", "e"⟩] := by
  exact ⟨rfl, rfl⟩

/-- Claim C6 (amended): in `main3.py` the inbound user message is inserted
into `chat_history` exactly on the calls that pass the entitlement gate;
a call denied with the `LIMIT_REACHED` sentinel returns before the
insert, so on denied calls the stored user-message count stays
unchanged, and on allowed calls it grows by one. -/
theorem C6_amended (db : Db) (req : V10.ChatRequest) (now : Int) (mentor : Mentor)
    (kb : String) (completionResult : Option String) :
    (V10.chat_with_mentor db req now mentor kb completionResult).db.chat_history =
      (if V10.is_subscribed_check db req now = false ∧ 5 ≤ V10.user_chat_count_of db req then
        db.chat_history
      else
        db.chat_history ++
          [⟨req.user_id, req.mentor_id, "user", req.message⟩,
           ⟨req.user_id, req.mentor_id, "ai",
             (V10.chat_with_mentor db req now mentor kb completionResult).response.reply⟩])
    ∧ V10.user_chat_count_of
        (V10.chat_with_mentor db req now mentor kb completionResult).db req =
      (if V10.is_subscribed_check db req now = false ∧ 5 ≤ V10.user_chat_count_of db req then
        V10.user_chat_count_of db req
      else V10.user_chat_count_of db req + 1) := by
  by_cases h : V10.is_subscribed_check db req now = false ∧ 5 ≤ V10.user_chat_count_of db req
  · have key : V10.chat_with_mentor db req now mentor kb completionResult =
        { db := db,
          response := { mentor := "System", reply := "LIMIT_REACHED",
                        usage := some (V10.user_chat_count_of db req) },
          invokedCompletion := false } := by
      simp only [V10.chat_with_mentor]
      rw [if_pos h]
    rw [key, if_pos h, if_pos h]
    exact ⟨rfl, rfl⟩
  · rcases completionResult with _ | text
    · have key : V10.chat_with_mentor db req now mentor kb none =
          { db := { db with chat_history :=
              (db.chat_history ++ [⟨req.user_id, req.mentor_id, "user", req.message⟩]) ++
                [⟨req.user_id, req.mentor_id, "ai", V10.failSoftReply⟩] },
            response := { mentor := mentor.name, reply := V10.failSoftReply, usage := none },
            invokedCompletion := true } := by
        simp only [V10.chat_with_mentor]
        rw [if_neg h]
      rw [key, if_neg h, if_neg h]
      constructor
      · simp
      · simp [V10.user_chat_count_of, List.filter_append]
    · have key : V10.chat_with_mentor db req now mentor kb (some text) =
          { db := { db with chat_history :=
              (db.chat_history ++ [⟨req.user_id, req.mentor_id, "user", req.message⟩]) ++
                [⟨req.user_id, req.mentor_id, "ai", text⟩] },
            response := { mentor := mentor.name, reply := text, usage := none },
            invokedCompletion := true } := by
        simp only [V10.chat_with_mentor]
        rw [if_neg h]
      rw [key, if_neg h, if_neg h]
      constructor
      · simp
      · simp [V10.user_chat_count_of, List.filter_append]

/-! C7: the digit trigger adds the math directive and never moves the phase. -/

/-- Claim C7: in `main3.py`, a message containing at least one decimal
digit makes the composed instruction block contain the math/calculation
directive, and the digit check has no effect on the computed phase
signal: the handler computes the same `is_start` value whatever the
message content is. -/
theorem C7_math_trigger (db : Db) (uid : String) (mid : Int) (btype m1 m2 mname kb : String)
    (hdig : V10.has_numbers m1 = true) :
    containsStr (V10.system_prompt mname kb btype (V10.math_instruction m1))
      mathDirective = true
    ∧ V10.is_start_of db ⟨uid, mid, m1, btype⟩ = V10.is_start_of db ⟨uid, mid, m2, btype⟩ := by
  constructor
  · have hmi : V10.math_instruction m1 = V10.mathText := by
      simp [V10.math_instruction, hdig]
    rw [V10.system_prompt, hmi]
    apply containsStr_left
    apply containsStr_right
    rfl
  · simp [V10.is_start_of, V10.past_chats_of, V10.takeLast, List.filter_append,
      List.filter_cons]

/-- Claim C7 witness: the message `"modal 5000"` contains digits; the block
contains the math directive and the phase signal matches the one for a
digit-free message. -/
theorem C7_math_trigger_witness :
    V10.has_numbers "modal 5000" = true
    ∧ (containsStr (V10.system_prompt "Rina" "K7" "Umum"
          (V10.math_instruction "modal 5000")) mathDirective = true
      ∧ V10.is_start_of (Db.mk [] [⟨"u3", 4, "user", "halo"⟩]) ⟨"u3", 4, "modal 5000", "Umum"⟩ =
        V10.is_start_of (Db.mk [] [⟨"u3", 4, "user", "halo"⟩]) ⟨"u3", 4, "tanpa angka", "Umum"⟩) :=
  ⟨by decide,
    C7_math_trigger (Db.mk [] [⟨"u3", 4, "user", "halo"⟩]) "u3" 4 "Umum" "modal 5000"
      "tanpa angka" "Rina" "K7" (by decide)⟩

/-! C8: the webhook has no immutability guard. -/

/-- Claim C8 counterexample: a row transitioned to `settlement` by a first
notification is transitioned again to `failed` by a later `deny`
notification for the same order id — the status is not immutable after
the first transition. -/
theorem C8_counterexample :
    ((V36.midtrans_notification
        (V36.midtrans_notification
          [{ user_id := "u1", mentor_id := 1, midtrans_order_id := "SUB-u1-01020304-2",
             amount := 100, net_amount := 90, platform_fee_amount := 10,
             status := "pending", created_at := 0 }]
          "SUB-u1-01020304-2" "settlement" 100)
        "SUB-u1-01020304-2" "deny" 200).map fun r => r.status) = ["failed"]
    ∧ ((V36.midtrans_notification
        [{ user_id := "u1", mentor_id := 1, midtrans_order_id := "SUB-u1-01020304-2",
           amount := 100, net_amount := 90, platform_fee_amount := 10,
           status := "pending", created_at := 0 }]
        "SUB-u1-01020304-2" "settlement" 100).map fun r => r.status) = ["settlement"]
    ∧ ("failed" : String) ≠ "settlement" :=
  ⟨by decide, by decide, by decide⟩

/-- Claim C8 (amended): every subscription row is created with
`status = pending` by payment creation, and each webhook notification
unconditionally sets every row matching the order id to `settlement` (on
`capture`/`settlement`) or `failed` (on `deny`/`cancel`/`expire`),
irrespective of the row's current status — there is no
exactly-once/immutability guard, so a later notification can change the
status again. -/
theorem C8_amended (db : List SubRow) (order_id t : String) (now : Int)
    (price duration : Int) (uid stamp : String) (mid cnow : Int) :
    (V36.create_payment price uid mid duration stamp cnow).status = "pending"
    ∧ V36.midtrans_notification db order_id t now = db.map fun r =>
        if (t = "capture" ∨ t = "settlement") ∧ r.midtrans_order_id = order_id then
          { r with status := "settlement", start_date := some now,
                   expires_at := some (now + 3600 * V36.duration_hours_of order_id) }
        else if (t = "deny" ∨ t = "cancel" ∨ t = "expire") ∧ r.midtrans_order_id = order_id then
          { r with status := "failed" }
        else r := by
  refine ⟨rfl, ?_⟩
  by_cases h1 : t = "capture" ∨ t = "settlement"
  · have hb : (t == "capture" || t == "settlement") = true := by
      rcases h1 with h | h <;> simp [h]
    simp only [V36.midtrans_notification, hb, if_true]
    refine List.map_congr_left ?_
    intro r _
    by_cases hr : r.midtrans_order_id = order_id
    · simp [hr, h1]
    · simp [hr, h1]
  · by_cases h2 : t = "deny" ∨ t = "cancel" ∨ t = "expire"
    · obtain ⟨ha, hb'⟩ := not_or.mp h1
      have hb1 : (t == "capture" || t == "settlement") = false := by
        simp [beq_eq_false_iff_ne, ha, hb']
      have hb2 : (t == "deny" || t == "cancel" || t == "expire") = true := by
        rcases h2 with h | h | h <;> simp [h]
      simp only [V36.midtrans_notification, hb1, hb2, if_true, Bool.false_eq_true, if_false]
      refine List.map_congr_left ?_
      intro r _
      by_cases hr : r.midtrans_order_id = order_id
      · simp [hr, h1, h2]
      · simp [hr, h1, h2]
    · obtain ⟨ha, hb'⟩ := not_or.mp h1
      have hb1 : (t == "capture" || t == "settlement") = false := by
        simp [beq_eq_false_iff_ne, ha, hb']
      have hb2 : (t == "deny" || t == "cancel" || t == "expire") = false := by
        have hd : t ≠ "deny" := fun h => h2 (Or.inl h)
        have he : t ≠ "cancel" := fun h => h2 (Or.inr (Or.inl h))
        have hf : t ≠ "expire" := fun h => h2 (Or.inr (Or.inr h))
        simp [beq_eq_false_iff_ne, hd, he, hf]
      simp only [V36.midtrans_notification, hb1, hb2, Bool.false_eq_true, if_false]
      have : (db.map fun r =>
          if (t = "capture" ∨ t = "settlement") ∧ r.midtrans_order_id = order_id then
            { r with status := "settlement", start_date := some now,
                     expires_at := some (now + 3600 * V36.duration_hours_of order_id) }
          else if (t = "deny" ∨ t = "cancel" ∨ t = "expire") ∧
              r.midtrans_order_id = order_id then
            { r with status := "failed" }
          else r) = db.map fun r => r := by
        refine List.map_congr_left ?_
        intro r _
        simp [h1, h2]
      rw [this, List.map_id']

/-! C9: webhook expiry arithmetic. -/

/-- Claim C9: on a `capture` or `settlement` notification, the webhook of
`main.py` gives every subscription row matching the order id
`expires_at = now + H * 3600` seconds (i.e. `now + H` hours), where `H`
is the integer parsed from the final hyphen-separated segment of the
order id and defaults to 1 when that segment does not parse as an
integer; non-matching rows are unchanged. -/
theorem C9_webhook_expiry (db : List SubRow) (order_id : String) (now : Int) (t : String)
    (ht : t = "capture" ∨ t = "settlement") :
    V36.duration_hours_of order_id = (pyIntOfStr (lastSegment order_id)).getD 1
    ∧ V36.midtrans_notification db order_id t now = db.map fun r =>
        if r.midtrans_order_id = order_id then
          { r with status := "settlement", start_date := some now,
                   expires_at := some (now + 3600 * (pyIntOfStr (lastSegment order_id)).getD 1) }
        else r := by
  have hd : V36.duration_hours_of order_id = (pyIntOfStr (lastSegment order_id)).getD 1 := by
    cases hpy : pyIntOfStr (lastSegment order_id) <;> simp [V36.duration_hours_of, hpy]
  refine ⟨hd, ?_⟩
  have hb : (t == "capture" || t == "settlement") = true := by
    rcases ht with h | h <;> simp [h]
  simp only [V36.midtrans_notification, hb, if_true]
  rw [← hd]
  refine List.map_congr_left ?_
  intro r _
  by_cases hr : r.midtrans_order_id = order_id
  · simp [hr]
  · simp [hr]

/-- Claim C9 witness: the order id `SUB-ab12-05060708-3` parses to `H = 3`,
and a `settlement` notification sets the matching row's expiry to
`now + 3 * 3600`. -/
theorem C9_webhook_expiry_witness :
    (("settlement" : String) = "capture" ∨ ("settlement" : String) = "settlement")
    ∧ (V36.duration_hours_of "SUB-ab12-05060708-3" =
        (pyIntOfStr (lastSegment "SUB-ab12-05060708-3")).getD 1
      ∧ V36.midtrans_notification
          [{ user_id := "ab12x", mentor_id := 9, midtrans_order_id := "SUB-ab12-05060708-3",
             amount := 300, net_amount := 270, platform_fee_amount := 30,
             status := "pending", created_at := 400 }]
          "SUB-ab12-05060708-3" "settlement" 500 =
        [{ user_id := "ab12x", mentor_id := 9, midtrans_order_id := "SUB-ab12-05060708-3",
           amount := 300, net_amount := 270, platform_fee_amount := 30,
           status := "pending", created_at := 400 }].map fun r =>
          if r.midtrans_order_id = "SUB-ab12-05060708-3" then
            { r with status := "settlement", start_date := some 500,
                     expires_at := some (500 + 3600 *
                       (pyIntOfStr (lastSegment "SUB-ab12-05060708-3")).getD 1) }
          else r) :=
  ⟨Or.inr rfl,
    C9_webhook_expiry
      [{ user_id := "ab12x", mentor_id := 9, midtrans_order_id := "SUB-ab12-05060708-3",
         amount := 300, net_amount := 270, platform_fee_amount := 30,
         status := "pending", created_at := 400 }]
      "SUB-ab12-05060708-3" 500 "settlement" (Or.inr rfl)⟩

/-! C10: payment-creation arithmetic and the binary64 fee. -/

/-- Claim C10 counterexample: at `price_per_month = 9007199254740999` and
`duration_hours = 1` the inserted row's fee is the binary64 result
`int(gross * 0.1) = 900719925474100`, while the exact integer truncation
of `0.1` times the gross amount is `900719925474099` — the fee deviates
from the exact arithmetic stated by the claim. -/
theorem C10_counterexample :
    (V36.create_payment 9007199254740999 "uA" 7 1 "01020304" 0).amount = 9007199254740999
    ∧ (V36.create_payment 9007199254740999 "uA" 7 1 "01020304" 0).platform_fee_amount =
        900719925474100
    ∧ Int.tdiv (9007199254740999 : Int) 10 = 900719925474099
    ∧ (V36.create_payment 9007199254740999 "uA" 7 1 "01020304" 0).platform_fee_amount ≠
        Int.tdiv ((V36.create_payment 9007199254740999 "uA" 7 1 "01020304" 0).amount) 10 :=
  ⟨by decide, by decide, by decide, by decide⟩

/-- Claim C10 (amended): every subscription row inserted by
`create_payment` (`main.py`) has `gross = price_per_hour *
duration_hours`, `platform fee = int(gross * 0.1)` evaluated in IEEE-754
binary64 arithmetic (which agrees with the exact truncation of
`gross/10` for ordinary magnitudes but not for all integers),
`net = gross - fee` so that `fee + net = gross`, and
`status = pending`. -/
theorem C10_amended (price duration : Int) (uid stamp : String) (mid ts : Int) :
    (V36.create_payment price uid mid duration stamp ts).amount = price * duration
    ∧ (V36.create_payment price uid mid duration stamp ts).platform_fee_amount =
        Binary64.pyTruncTimesTenth (price * duration)
    ∧ (V36.create_payment price uid mid duration stamp ts).net_amount =
        price * duration - Binary64.pyTruncTimesTenth (price * duration)
    ∧ (V36.create_payment price uid mid duration stamp ts).platform_fee_amount +
        (V36.create_payment price uid mid duration stamp ts).net_amount =
        (V36.create_payment price uid mid duration stamp ts).amount
    ∧ (V36.create_payment price uid mid duration stamp ts).status = "pending" := by
  refine ⟨rfl, rfl, rfl, ?_, rfl⟩
  simp only [V36.create_payment]
  omega

end Mentoraja
